import Mathlib

/- Verification of the build-information reporting facility of the
   modern-cpp-template repository.

   The embedding models:
   * `tmp::add` (src/src/tmp.cpp): 32-bit two's-complement integer addition;
   * `tmp::DumpBuildInfo` (src/src/tmp.cpp): the library-side report writer;
   * the executable-local `DumpBuildInfo` and `main` (src/unnamed/part_006);
   * cmake/buildinfo.script.cmake: the configure-time metadata gathering step.

   An output stream (`std::ostream`) is modelled as the list of characters it
   has received so far; `operator<<` appends.  Build metadata is the immutable
   record of string constants interpolated by the reporters. -/

/-- Build Metadata Record: the immutable bag of string fields gathered at
configuration time (project::* constants / BUILD_* macros) and consumed by the
report writers. -/
structure BuildMetadata where
  version : String
  build_type : String
  build_timestamp : String
  build_user : String
  build_host : String
  target_system : String
  target_architecture : String
  host_system : String
  compiler_id : String
  compiler_version : String
  git_describe : String
  git_commit_hash : String

/-- An output text sink (`std::ostream`), modelled as the sequence of
characters written to it so far. -/
abbrev OStream := List Char

/-- Stream insertion of a string literal or string value: `os << s`. -/
def wr (os : OStream) (s : String) : OStream := os ++ s.data

/-- Stream insertion of a single character: `os << c`. -/
def wrc (os : OStream) (c : Char) : OStream := os ++ [c]

namespace tmp

/-- Embeds `tmp::add` from src/src/tmp.cpp:
`int add(int left, int right) { return left + right; }`.
The C++ `int` is 32 bits; the sum is reduced modulo 2^32 into the signed
range [-2^31, 2^31), i.e. two's-complement wraparound. -/
def add (left right : Int) : Int :=
  ((left + right + 2147483648) % 4294967296) - 2147483648

/-- Embeds `tmp::DumpBuildInfo(std::ostream&)` from src/src/tmp.cpp.
Each `let` mirrors one statement of the C++ function; each `wr`/`wrc`
mirrors one `<<` insertion, with the same string/char literals. -/
def DumpBuildInfo (m : BuildMetadata) (ostream : OStream) : OStream :=
  let os1 := wr ostream ("Build Information\n")
  let os2 := wr os1 ("-----------------\n")
  let os3 := wr (wr (wr os2 ("Version  : ")) m.version) ("\n")
  let os4 := wr (wr (wr (wr (wr os3 ("Build    : ")) m.build_type) (" (")) m.build_timestamp) (")\n")
  let os5 := wr (wr (wr (wr (wr os4 ("User     : ")) m.build_user) (" @ ")) m.build_host) ("\n\n")
  let os6 := wr (wr (wr (wr (wr os5 ("Platform : ")) m.target_system) (" ")) m.target_architecture) ("\n")
  let os7 := wr (wr (wr os6 ("Host     : ")) m.host_system) ("\n\n")
  let os8 := wr (wr (wr (wr (wr os7 ("Compiler : ")) m.compiler_id) (" ")) m.compiler_version) ("\n\n")
  let os9 := wrc (wr (wr os8 ("Source   : ")) m.git_describe) '\n'
  wrc (wr (wr os9 ("Commit   : ")) m.git_commit_hash) '\n'

end tmp

/-- Embeds the executable-local `DumpBuildInfo(std::ostream&)` from
src/unnamed/part_006: a single statement chaining all insertions, with the
adjacent string literals of the source merged exactly as written there.
It omits the Version line and is otherwise the same field set. -/
def DumpBuildInfo (m : BuildMetadata) (ostream : OStream) : OStream :=
  let t1 := wr ostream ("Build Information\n-----------------\nBuild    : ")
  let t2 := wr t1 m.build_type
  let t3 := wr t2 (" (")
  let t4 := wr t3 m.build_timestamp
  let t5 := wr t4 (")\nUser     : ")
  let t6 := wr t5 m.build_user
  let t7 := wr t6 (" @ ")
  let t8 := wr t7 m.build_host
  let t9 := wr t8 ("\n\nPlatform : ")
  let t10 := wr t9 m.target_system
  let t11 := wr t10 (" ")
  let t12 := wr t11 m.target_architecture
  let t13 := wr t12 ("\nHost     : ")
  let t14 := wr t13 m.host_system
  let t15 := wr t14 ("\n\nCompiler : ")
  let t16 := wr t15 m.compiler_id
  let t17 := wr t16 (" ")
  let t18 := wr t17 m.compiler_version
  let t19 := wr t18 ("\n\nSource   : ")
  let t20 := wr t19 m.git_describe
  let t21 := wrc t20 '\n'
  let t22 := wr t21 ("Commit   : ")
  let t23 := wr t22 m.git_commit_hash
  wrc t23 '\n'

/-- Embeds the function `main` of src/unnamed/part_006: calls `tmp::DumpBuildInfo()` and
then the local `DumpBuildInfo()`, both defaulting to `std::cout`, and returns
0.  The command-line arguments are never read.  The result is the final
content of standard output paired with the exit status. -/
def mainEntry (args : List String) (m : BuildMetadata) : OStream × Int :=
  let stdoutStream : OStream := []
  let stdoutStream := tmp.DumpBuildInfo m stdoutStream
  let stdoutStream := DumpBuildInfo m stdoutStream
  (stdoutStream, 0)

/-- The bytes the library-side reporter writes for metadata `m`. -/
def reportLib (m : BuildMetadata) : OStream := tmp.DumpBuildInfo m []

/-- The bytes the executable-local reporter writes for metadata `m`. -/
def reportBin (m : BuildMetadata) : OStream := DumpBuildInfo m []

/-- The representable values of a 32-bit C++ `int`. -/
abbrev Int32Repr (x : Int) : Prop := -2147483648 ≤ x ∧ x ≤ 2147483647

/-- CMake falsiness test as applied by `if(NOT _build_type_upper)` in
cmake/buildinfo.script.cmake.  The tested string has already been uppercased,
so the case-insensitive CMake false constants reduce to this uppercase set. -/
def cmakeIsFalse (s : String) : Bool :=
  s == "" || s == "0" || s == "FALSE" || s == "OFF" || s == "N" || s == "NO" ||
  s == "IGNORE" || s == "NOTFOUND" || s.endsWith ("-NOTFOUND")

/-- Models CMake `string(TOUPPER ...)`: character-wise uppercasing. -/
def strToUpper (s : String) : String := ⟨s.data.map Char.toUpper⟩

/-- The inputs of cmake/buildinfo.script.cmake: the CMake variables passed via
`-D` (empty string when not passed), the configure-time timestamp, git
availability (`GIT_FOUND AND EXISTS .git`) with the raw git command outputs,
and the `USER` / `USERNAME` environment variables (`none` when undefined). -/
structure ScriptInput where
  timestamp : String
  cmake_build_type : String
  cxx_compiler_id : String
  cxx_compiler_version : String
  system_name : String
  system_processor : String
  host_system : String
  host_system_name : String
  git_available : Bool
  git_hash : String
  git_describe : String
  env_user : Option String
  env_username : Option String

/-- The `#define`s written into the generated header by
cmake/buildinfo.script.cmake. -/
structure GeneratedHeader where
  build_timestamp : String
  build_type : String
  build_user : String
  build_host : String
  target_system : String
  target_architecture : String
  host_system : String
  compiler_id : String
  compiler_version : String
  git_commit_hash : String
  git_describe : String

/-- Embeds the variable-setting logic of cmake/buildinfo.script.cmake, one
`let` per script step, in script order: uppercase CMAKE_BUILD_TYPE with
fallback "UNKNOWN"; compiler id/version, target system/processor and host
system taken verbatim (no fallback in the script); git hash/describe with
fallbacks "unknown"/"no-git"; build user from ENV{USER} then ENV{USERNAME}
then "unknown"; build host from CMAKE_HOST_SYSTEM verbatim. -/
def generateBuildInfo (i : ScriptInput) : GeneratedHeader :=
  let timestampVal := i.timestamp
  let buildTypeUpper0 := strToUpper i.cmake_build_type
  let buildTypeUpper := if cmakeIsFalse buildTypeUpper0 then ("UNKNOWN") else buildTypeUpper0
  let compilerId := i.cxx_compiler_id
  let compilerVersion := i.cxx_compiler_version
  let systemName := i.system_name
  let systemProcessor := i.system_processor
  let hostSystemName := i.host_system_name
  let gitInfo := if i.git_available then (i.git_hash, i.git_describe) else (("unknown"), ("no-git"))
  let buildUser :=
    match i.env_user with
    | some u => u
    | none =>
      match i.env_username with
      | some u => u
      | none => ("unknown")
  let buildHost := i.host_system
  { build_timestamp := timestampVal
    build_type := buildTypeUpper
    build_user := buildUser
    build_host := buildHost
    target_system := systemName
    target_architecture := systemProcessor
    host_system := hostSystemName
    compiler_id := compilerId
    compiler_version := compilerVersion
    git_commit_hash := gitInfo.1
    git_describe := gitInfo.2 }

/-- Assembles the Build Metadata Record consumed by the reporters from a
generated header plus the separately generated project version string. -/
def metadataOfHeader (version : String) (g : GeneratedHeader) : BuildMetadata :=
  { version := version
    build_type := g.build_type
    build_timestamp := g.build_timestamp
    build_user := g.build_user
    build_host := g.build_host
    target_system := g.target_system
    target_architecture := g.target_architecture
    host_system := g.host_system
    compiler_id := g.compiler_id
    compiler_version := g.compiler_version
    git_describe := g.git_describe
    git_commit_hash := g.git_commit_hash }

/-- A script invocation where only the required NAME/OUTPUT are passed: all
optional CMake variables are empty, git is unavailable, and no user
environment variables are defined. -/
def bareScriptInput : ScriptInput :=
  { timestamp := "2024-01-01 00:00:00 UTC"
    cmake_build_type := ""
    cxx_compiler_id := ""
    cxx_compiler_version := ""
    system_name := ""
    system_processor := ""
    host_system := ""
    host_system_name := ""
    git_available := false
    git_hash := ""
    git_describe := ""
    env_user := none
    env_username := none }

/-- The version line content of the report (label plus value, no newline). -/
def versionL (m : BuildMetadata) : OStream := ("Version  : ").data ++ m.version.data

/-- The build line content: build_type with build_timestamp in parentheses. -/
def buildL (m : BuildMetadata) : OStream :=
  ("Build    : ").data ++ (m.build_type.data ++ ((" (").data ++ (m.build_timestamp.data ++ (")").data)))

/-- The user line content: build_user "@" build_host. -/
def userL (m : BuildMetadata) : OStream :=
  ("User     : ").data ++ (m.build_user.data ++ ((" @ ").data ++ m.build_host.data))

/-- The platform line content: target_system and target_architecture. -/
def platformL (m : BuildMetadata) : OStream :=
  ("Platform : ").data ++ (m.target_system.data ++ ((" ").data ++ m.target_architecture.data))

/-- The host line content: host_system. -/
def hostL (m : BuildMetadata) : OStream := ("Host     : ").data ++ m.host_system.data

/-- The compiler line content: compiler_id and compiler_version. -/
def compilerL (m : BuildMetadata) : OStream :=
  ("Compiler : ").data ++ (m.compiler_id.data ++ ((" ").data ++ m.compiler_version.data))

/-- The source line content: git_describe. -/
def sourceL (m : BuildMetadata) : OStream := ("Source   : ").data ++ m.git_describe.data

/-- The commit line content: git_commit_hash. -/
def commitL (m : BuildMetadata) : OStream := ("Commit   : ").data ++ m.git_commit_hash.data

/-- The newline-terminated report lines shared by both reporters, from the
build line to the commit line (everything after title, underline and the
optional version line). -/
def tailLines (m : BuildMetadata) : OStream :=
  buildL m ++ '\n' :: (userL m ++ '\n' :: ('\n' :: (platformL m ++ '\n' ::
    (hostL m ++ '\n' :: ('\n' :: (compilerL m ++ '\n' :: ('\n' ::
      (sourceL m ++ '\n' :: (commitL m ++ '\n' :: [])))))))))

/-- Splits a character stream into its lines at newline characters (the final
element is the residue after the last newline; it is empty when the stream
ends with a newline). -/
def splitLines : List Char → List (List Char)
  | [] => [[]]
  | c :: cs =>
    if c = '\n' then [] :: splitLines cs
    else
      match splitLines cs with
      | [] => [[c]]
      | l :: ls => (c :: l) :: ls

/-- Number of occurrences of `pat` as a substring of `hay` (counted by
starting position). -/
def countOccs (hay pat : List Char) : Nat :=
  match hay with
  | [] => 0
  | _ :: t => (if pat.isPrefixOf hay then 1 else 0) + countOccs t pat

/-- The string contains no newline character. -/
abbrev noNL (s : String) : Prop := '\n' ∉ s.data

/-- A concrete well-formed metadata record with ordinary field values. -/
def sampleRecord : BuildMetadata :=
  { version := "1.2.3"
    build_type := "DEBUG"
    build_timestamp := "2025-05-05 12:00:00 UTC"
    build_user := "alice"
    build_host := "buildbox"
    target_system := "Linux"
    target_architecture := "x86_64"
    host_system := "Darwin"
    compiler_id := "GNU"
    compiler_version := "13.2.0"
    git_describe := "v1.2.3-4-gabc1234"
    git_commit_hash := "abc1234" }

/-- The sample record specialised to a RELEASE build at a fixed timestamp with
an unknown commit hash. -/
def releaseRecord : BuildMetadata :=
  { sampleRecord with
    build_type := "RELEASE"
    build_timestamp := "2024-01-01 00:00:00 UTC"
    git_commit_hash := "unknown" }

theorem dumpLib_append (m : BuildMetadata) (s : OStream) :
    tmp.DumpBuildInfo m s = s ++ reportLib m := by
  simp [tmp.DumpBuildInfo, reportLib, wr, wrc, List.append_assoc]

theorem dumpBin_append (m : BuildMetadata) (s : OStream) :
    DumpBuildInfo m s = s ++ reportBin m := by
  simp [DumpBuildInfo, reportBin, wr, wrc, List.append_assoc]

theorem reportLib_layout (m : BuildMetadata) :
    reportLib m = ("Build Information").data ++ '\n' :: (("-----------------").data ++ '\n' ::
      (versionL m ++ '\n' :: tailLines m)) := by
  have hA : ("Build Information\n").data = ("Build Information").data ++ ['\n'] := by decide
  have hB : ("-----------------\n").data = ("-----------------").data ++ ['\n'] := by decide
  have hC : ("\n").data = ['\n'] := by decide
  have hD : (")\n").data = (")").data ++ ['\n'] := by decide
  have hE : ("\n\n").data = ['\n'] ++ ['\n'] := by decide
  simp [reportLib, tmp.DumpBuildInfo, wr, wrc, tailLines, versionL, buildL, userL,
    platformL, hostL, compilerL, sourceL, commitL, hA, hB, hC, hD, hE, List.append_assoc]

theorem reportBin_layout (m : BuildMetadata) :
    reportBin m = ("Build Information").data ++ '\n' :: (("-----------------").data ++ '\n' ::
      tailLines m) := by
  have hF : ("Build Information\n-----------------\nBuild    : ").data =
      ("Build Information").data ++ (['\n'] ++ (("-----------------").data ++ (['\n'] ++
        ("Build    : ").data))) := by decide
  have hG : (")\nUser     : ").data = (")").data ++ (['\n'] ++ ("User     : ").data) := by decide
  have hH : ("\n\nPlatform : ").data = ['\n'] ++ (['\n'] ++ ("Platform : ").data) := by decide
  have hI : ("\nHost     : ").data = ['\n'] ++ ("Host     : ").data := by decide
  have hJ : ("\n\nCompiler : ").data = ['\n'] ++ (['\n'] ++ ("Compiler : ").data) := by decide
  have hK : ("\n\nSource   : ").data = ['\n'] ++ (['\n'] ++ ("Source   : ").data) := by decide
  simp [reportBin, DumpBuildInfo, wr, wrc, tailLines, buildL, userL,
    platformL, hostL, compilerL, sourceL, commitL, hF, hG, hH, hI, hJ, hK, List.append_assoc]

/-- C1: for every pair of representable 32-bit integers, `add` returns their
mathematical sum reduced modulo 2^32 into the signed range (two's-complement
wraparound); when the sum itself is representable the result is exactly the
sum; `add` is commutative with identity 0, and add(1,2) = 3, add(-5,5) = 0. -/
theorem add_int32_wraparound_spec (left right : Int)
    (hl : Int32Repr left) (hr : Int32Repr right) :
    Int32Repr (tmp.add left right) ∧
    tmp.add left right % 4294967296 = (left + right) % 4294967296 ∧
    (Int32Repr (left + right) → tmp.add left right = left + right) ∧
    tmp.add left right = tmp.add right left ∧
    tmp.add left 0 = left ∧
    tmp.add 1 2 = 3 ∧ tmp.add (-5) 5 = 0 := by
  refine ⟨?_, ?_, fun hs => ?_, ?_, ?_, ?_, ?_⟩ <;>
    simp only [tmp.add, Int32Repr] at * <;> omega

theorem add_int32_wraparound_spec_witness :
    Int32Repr (tmp.add 1 2) ∧
    tmp.add 1 2 % 4294967296 = (1 + 2) % 4294967296 ∧
    (Int32Repr ((1 : Int) + 2) → tmp.add 1 2 = 1 + 2) ∧
    tmp.add 1 2 = tmp.add 2 1 ∧
    tmp.add 1 0 = 1 ∧
    tmp.add 1 2 = 3 ∧ tmp.add (-5) 5 = 0 :=
  add_int32_wraparound_spec 1 2 (by decide) (by decide)

theorem splitLines_newline (b : List Char) : splitLines ('\n' :: b) = [] :: splitLines b := by
  simp [splitLines]

theorem splitLines_append (a b : List Char) (h : '\n' ∉ a) :
    splitLines (a ++ '\n' :: b) = a :: splitLines b := by
  induction a with
  | nil => simp [splitLines]
  | cons c cs ih =>
    have hc : ¬ (c = '\n') := fun he => h (by simp [he])
    have h' : '\n' ∉ cs := fun hm => h (by simp [hm])
    simp only [List.cons_append, splitLines, if_neg hc, List.append_eq, ih h']

theorem noNLAppend {a b : List Char} (h1 : '\n' ∉ a) (h2 : '\n' ∉ b) : '\n' ∉ a ++ b := by
  intro hm
  rcases List.mem_append.mp hm with h | h
  · exact h1 h
  · exact h2 h

theorem isPrefixOfIff (p q : List Char) : p.isPrefixOf q = true ↔ p <+: q := by
  induction p generalizing q with
  | nil => simp [List.isPrefixOf, List.nil_prefix]
  | cons a as ih =>
    cases q with
    | nil =>
      rw [show (a :: as).isPrefixOf [] = false from rfl]
      simp [List.prefix_nil]
    | cons b bs =>
      rw [show (a :: as).isPrefixOf (b :: bs) = (a == b && as.isPrefixOf bs) from rfl]
      simp [Bool.and_eq_true, beq_iff_eq, ih, List.cons_prefix_cons]

theorem isPrefixOf_append_of_le (p q : List Char) (x : List Char) (h : p.length ≤ q.length) :
    p.isPrefixOf (q ++ x) = p.isPrefixOf q := by
  induction p generalizing q with
  | nil => simp [List.isPrefixOf]
  | cons a as ih =>
    cases q with
    | nil => simp at h
    | cons b bs =>
      simp only [List.cons_append, List.isPrefixOf, List.append_eq]
      rw [ih bs (by simpa using h)]

theorem beqAppendNe (q t : List Char) (x : List Char) (h : q.isPrefixOf t = false) :
    ((q ++ x) == t) = false := by
  rw [beq_eq_false_iff_ne]
  intro he
  have hpf : q <+: t := he ▸ List.prefix_append q x
  rw [(isPrefixOfIff q t).mpr hpf] at h
  exact Bool.noConfusion h

theorem splitLines_reportLib (m : BuildMetadata)
    (h1 : noNL m.version) (h2 : noNL m.build_type) (h3 : noNL m.build_timestamp)
    (h4 : noNL m.build_user) (h5 : noNL m.build_host) (h6 : noNL m.target_system)
    (h7 : noNL m.target_architecture) (h8 : noNL m.host_system) (h9 : noNL m.compiler_id)
    (h10 : noNL m.compiler_version) (h11 : noNL m.git_describe) (h12 : noNL m.git_commit_hash) :
    splitLines (reportLib m) =
      [("Build Information").data, ("-----------------").data, versionL m, buildL m,
       userL m, [], platformL m, hostL m, [], compilerL m, [], sourceL m, commitL m, []] := by
  have hv : '\n' ∉ versionL m := noNLAppend (by decide) h1
  have hb : '\n' ∉ buildL m :=
    noNLAppend (by decide) (noNLAppend h2 (noNLAppend (by decide) (noNLAppend h3 (by decide))))
  have hu : '\n' ∉ userL m :=
    noNLAppend (by decide) (noNLAppend h4 (noNLAppend (by decide) h5))
  have hp : '\n' ∉ platformL m :=
    noNLAppend (by decide) (noNLAppend h6 (noNLAppend (by decide) h7))
  have hh : '\n' ∉ hostL m := noNLAppend (by decide) h8
  have hcp : '\n' ∉ compilerL m :=
    noNLAppend (by decide) (noNLAppend h9 (noNLAppend (by decide) h10))
  have hsrc : '\n' ∉ sourceL m := noNLAppend (by decide) h11
  have hcm : '\n' ∉ commitL m := noNLAppend (by decide) h12
  have hT : '\n' ∉ ("Build Information").data := by decide
  have hU : '\n' ∉ ("-----------------").data := by decide
  rw [reportLib_layout]
  simp only [tailLines]
  rw [splitLines_append _ _ hT, splitLines_append _ _ hU, splitLines_append _ _ hv,
    splitLines_append _ _ hb, splitLines_append _ _ hu, splitLines_newline,
    splitLines_append _ _ hp, splitLines_append _ _ hh, splitLines_newline,
    splitLines_append _ _ hcp, splitLines_newline, splitLines_append _ _ hsrc,
    splitLines_append _ _ hcm]
  rfl

theorem buildLine_inside (m : BuildMetadata) : buildL m <:+: reportLib m := by
  refine ⟨("Build Information").data ++ '\n' :: (("-----------------").data ++ '\n' ::
    (versionL m ++ ['\n'])),
    '\n' :: (userL m ++ '\n' :: ('\n' :: (platformL m ++ '\n' :: (hostL m ++ '\n' ::
      ('\n' :: (compilerL m ++ '\n' :: ('\n' :: (sourceL m ++ '\n' ::
        (commitL m ++ '\n' :: []))))))))), ?_⟩
  rw [reportLib_layout]
  simp [tailLines, List.append_assoc]

theorem commitLine_inside (m : BuildMetadata) : commitL m <:+: reportLib m := by
  refine ⟨("Build Information").data ++ '\n' :: (("-----------------").data ++ '\n' ::
    (versionL m ++ '\n' :: (buildL m ++ '\n' :: (userL m ++ '\n' :: ('\n' ::
      (platformL m ++ '\n' :: (hostL m ++ '\n' :: ('\n' :: (compilerL m ++ '\n' ::
        ('\n' :: (sourceL m ++ ['\n']))))))))))), ['\n'], ?_⟩
  rw [reportLib_layout]
  simp [tailLines, List.append_assoc]

/-- C2 (code bug): invoked with only the required NAME/OUTPUT variables, the
build-info script writes empty strings (not sentinels) for COMPILER_ID,
COMPILER_VERSION, BUILD_HOST, TARGET_SYSTEM and HOST_SYSTEM, even though it
does substitute sentinels for build type, build user and the git fields; the
resulting report then shows empty values after the Compiler and Host labels,
contradicting the script's own header comment ("if not passed, defaults will
be used") and the spec's every-field-has-a-sentinel invariant. -/
theorem buildinfo_script_missing_compiler_fallback :
    (generateBuildInfo bareScriptInput).compiler_id = "" ∧
    (generateBuildInfo bareScriptInput).compiler_version = "" ∧
    (generateBuildInfo bareScriptInput).build_host = "" ∧
    (generateBuildInfo bareScriptInput).target_system = "" ∧
    (generateBuildInfo bareScriptInput).host_system = "" ∧
    (generateBuildInfo bareScriptInput).build_type = "UNKNOWN" ∧
    (generateBuildInfo bareScriptInput).build_user = "unknown" ∧
    (generateBuildInfo bareScriptInput).git_commit_hash = "unknown" ∧
    (generateBuildInfo bareScriptInput).git_describe = "no-git" ∧
    (splitLines (reportBin (metadataOfHeader ("0.0.0") (generateBuildInfo bareScriptInput))))[8]? =
      some (("Compiler :  ").data) ∧
    (splitLines (reportBin (metadataOfHeader ("0.0.0") (generateBuildInfo bareScriptInput))))[6]? =
      some (("Host     : ").data) := by
  decide

/-- C3: for every metadata record, the library report is exactly, in order:
the "Build Information" title line, the underline, the version line, the
build line (build_type with build_timestamp in parentheses), the user line
(build_user "@" build_host), a blank line, the platform line (target_system,
target_architecture), the host line (host_system), a blank line, the compiler
line (compiler_id, compiler_version), a blank line, the source line
(git_describe) and the commit line (git_commit_hash), each newline-terminated. -/
theorem dump_build_info_section_layout (m : BuildMetadata) :
    reportLib m = ("Build Information").data ++ '\n' :: (("-----------------").data ++ '\n' ::
      (versionL m ++ '\n' :: (buildL m ++ '\n' :: (userL m ++ '\n' :: ('\n' ::
        (platformL m ++ '\n' :: (hostL m ++ '\n' :: ('\n' :: (compilerL m ++ '\n' ::
          ('\n' :: (sourceL m ++ '\n' :: (commitL m ++ '\n' :: [])))))))))))) := by
  rw [reportLib_layout]
  rfl

/-- C4: the executable-local report is exactly the library report with the
version line deleted: both start with the title line and the underline, the
library variant then has the "Version  : " line, and both continue with the
identical tail from the build line through the commit line. -/
theorem exe_report_omits_version_line_only (m : BuildMetadata) :
    reportLib m = ("Build Information").data ++ '\n' :: (("-----------------").data ++ '\n' ::
      ((("Version  : ").data ++ m.version.data) ++ '\n' :: tailLines m)) ∧
    reportBin m = ("Build Information").data ++ '\n' :: (("-----------------").data ++ '\n' ::
      tailLines m) := by
  exact ⟨reportLib_layout m, reportBin_layout m⟩

set_option maxRecDepth 40000 in
/-- C5 counterexample: on an ordinary record the label "Build" occurs twice as
a substring of the report (once in the title "Build Information" and once in
the "Build    : " line), so the output does not contain each literal section
label exactly once. -/
theorem section_labels_substring_count_cex :
    countOccs (reportLib sampleRecord) (("Build").data) = 2 ∧
    countOccs (reportLib sampleRecord) (("Build").data) ≠ 1 := by
  constructor <;> decide

/-- C5 amended: for every metadata record whose field values contain no
newline character, each section label occurs exactly once as the label of a
line of the report: exactly one line equals "Build Information", and exactly
one line starts with each of the padded label prefixes "Build    : ",
"User     : ", "Platform : ", "Host     : ", "Compiler : ", "Source   : "
and "Commit   : ". -/
theorem section_labels_once_per_line (m : BuildMetadata)
    (h1 : noNL m.version) (h2 : noNL m.build_type) (h3 : noNL m.build_timestamp)
    (h4 : noNL m.build_user) (h5 : noNL m.build_host) (h6 : noNL m.target_system)
    (h7 : noNL m.target_architecture) (h8 : noNL m.host_system) (h9 : noNL m.compiler_id)
    (h10 : noNL m.compiler_version) (h11 : noNL m.git_describe) (h12 : noNL m.git_commit_hash) :
    List.countP (fun l => l == ("Build Information").data) (splitLines (reportLib m)) = 1 ∧
    List.countP (fun l => (("Build    : ").data).isPrefixOf l) (splitLines (reportLib m)) = 1 ∧
    List.countP (fun l => (("User     : ").data).isPrefixOf l) (splitLines (reportLib m)) = 1 ∧
    List.countP (fun l => (("Platform : ").data).isPrefixOf l) (splitLines (reportLib m)) = 1 ∧
    List.countP (fun l => (("Host     : ").data).isPrefixOf l) (splitLines (reportLib m)) = 1 ∧
    List.countP (fun l => (("Compiler : ").data).isPrefixOf l) (splitLines (reportLib m)) = 1 ∧
    List.countP (fun l => (("Source   : ").data).isPrefixOf l) (splitLines (reportLib m)) = 1 ∧
    List.countP (fun l => (("Commit   : ").data).isPrefixOf l) (splitLines (reportLib m)) = 1 := by
  have hs := splitLines_reportLib m h1 h2 h3 h4 h5 h6 h7 h8 h9 h10 h11 h12
  refine ⟨?_, ?_, ?_, ?_, ?_, ?_, ?_, ?_⟩ <;>
  · rw [hs]
    simp only [versionL, buildL, userL, platformL, hostL, compilerL, sourceL, commitL,
      List.countP_cons, List.countP_nil]
    repeat rw [beqAppendNe]
    repeat rw [isPrefixOf_append_of_le]
    all_goals decide

theorem section_labels_once_per_line_witness :
    List.countP (fun l => l == ("Build Information").data) (splitLines (reportLib sampleRecord)) = 1 ∧
    List.countP (fun l => (("Build    : ").data).isPrefixOf l) (splitLines (reportLib sampleRecord)) = 1 ∧
    List.countP (fun l => (("User     : ").data).isPrefixOf l) (splitLines (reportLib sampleRecord)) = 1 ∧
    List.countP (fun l => (("Platform : ").data).isPrefixOf l) (splitLines (reportLib sampleRecord)) = 1 ∧
    List.countP (fun l => (("Host     : ").data).isPrefixOf l) (splitLines (reportLib sampleRecord)) = 1 ∧
    List.countP (fun l => (("Compiler : ").data).isPrefixOf l) (splitLines (reportLib sampleRecord)) = 1 ∧
    List.countP (fun l => (("Source   : ").data).isPrefixOf l) (splitLines (reportLib sampleRecord)) = 1 ∧
    List.countP (fun l => (("Commit   : ").data).isPrefixOf l) (splitLines (reportLib sampleRecord)) = 1 :=
  section_labels_once_per_line sampleRecord (by decide) (by decide) (by decide) (by decide)
    (by decide) (by decide) (by decide) (by decide) (by decide) (by decide) (by decide) (by decide)

/-- C6: whenever the record has build_type "RELEASE", build_timestamp
"2024-01-01 00:00:00 UTC" and git_commit_hash "unknown", the report contains
the substrings "Build    : RELEASE (2024-01-01 00:00:00 UTC)" and
"Commit   : unknown". -/
theorem release_record_report_substrings (m : BuildMetadata)
    (hb : m.build_type = "RELEASE")
    (ht : m.build_timestamp = "2024-01-01 00:00:00 UTC")
    (hc : m.git_commit_hash = "unknown") :
    (("Build    : RELEASE (2024-01-01 00:00:00 UTC)").data) <:+: reportLib m ∧
    (("Commit   : unknown").data) <:+: reportLib m := by
  constructor
  · have he : ("Build    : RELEASE (2024-01-01 00:00:00 UTC)").data = buildL m := by
      simp only [buildL, hb, ht]
      decide
    rw [he]
    exact buildLine_inside m
  · have he : ("Commit   : unknown").data = commitL m := by
      simp only [commitL, hc]
      decide
    rw [he]
    exact commitLine_inside m

theorem release_record_report_substrings_witness :
    (("Build    : RELEASE (2024-01-01 00:00:00 UTC)").data) <:+: reportLib releaseRecord ∧
    (("Commit   : unknown").data) <:+: reportLib releaseRecord :=
  release_record_report_substrings releaseRecord rfl rfl rfl

/-- C7: the reporter is deterministic for a fixed metadata record: the bytes
written (the part of the sink past its original length) are the same for any
two calls, whatever the sinks contained before. -/
theorem dump_build_info_deterministic (m : BuildMetadata) (s1 s2 : OStream) :
    (tmp.DumpBuildInfo m s1).drop s1.length = (tmp.DumpBuildInfo m s2).drop s2.length := by
  rw [dumpLib_append, dumpLib_append, List.drop_left, List.drop_left]

/-- C8: for every metadata record and every sink, the reporter writes a
non-empty output: the sink strictly grows and the report is never empty. -/
theorem dump_build_info_nonempty (m : BuildMetadata) (s : OStream) :
    s.length < (tmp.DumpBuildInfo m s).length ∧ reportLib m ≠ [] := by
  have hne : reportLib m ≠ [] := by
    rw [reportLib_layout]
    simp
  refine ⟨?_, hne⟩
  rw [dumpLib_append, List.length_append]
  have hp := List.length_pos.mpr hne
  omega

/-- C9: the program entry point writes the build-information report (the
library report followed by the executable-local report) to standard output
and exits with status 0, and its behaviour does not depend on the
command-line arguments. -/
theorem main_prints_report_exits_zero (args args2 : List String) (m : BuildMetadata) :
    mainEntry args m = (reportLib m ++ reportBin m, 0) ∧ mainEntry args m = mainEntry args2 m := by
  constructor
  · simp [mainEntry, dumpBin_append, reportLib]
  · rfl

/-- C10: the reporter only appends to the provided sink: the characters
already present are preserved unchanged as a prefix, and the appended suffix
depends only on the metadata record, not on the sink's prior contents; this
holds for both the library-side and the executable-local variant. -/
theorem dump_build_info_append_only_frame (m : BuildMetadata) (s : OStream) :
    (tmp.DumpBuildInfo m s).take s.length = s ∧
    (tmp.DumpBuildInfo m s).drop s.length = reportLib m ∧
    (DumpBuildInfo m s).take s.length = s ∧
    (DumpBuildInfo m s).drop s.length = reportBin m := by
  rw [dumpLib_append, dumpBin_append]
  exact ⟨List.take_left .., List.drop_left .., List.take_left .., List.drop_left ..⟩
